import Mathlib

/-!
Verification of the margies-travel search front end
(src/01-azure-search/margies-travel/app.py) against its specification.

The embedding models:
  - query parameters as an association list with first-match lookup,
    mirroring the behavior of the request parameter multi-dict;
  - exceptions as their message strings (an `Except Exn` value);
  - the remote search client as a function from the submitted call
    parameters to either a result set or a raised exception;
  - the `/search` handler as a function returning the rendered page
    together with the list of remote calls it issued.
-/

namespace MargiesTravel

/-- Exceptions are modelled by their message text. -/
abbrev Exn := String

/-- Query parameters of an incoming HTTP request; a key may occur several
times, and lookups return the first value, mirroring the multi-dict. -/
abbrev Args := List (String × String)

/-- Models `request.args.get(key, default)`: first value for the key, or
the default when the key is absent. -/
def argsGet (args : Args) (key : String) (dflt : String) : String :=
  match List.lookup key args with
  | some v => v
  | none => dflt

/-- Models the membership test on the request parameters. -/
def argsHas (args : Args) (key : String) : Bool :=
  (List.lookup key args).isSome

/-- Opaque result object returned by the remote service: a sequence of
string-keyed records plus a total count. The application never inspects
its contents. -/
structure ResultSet where
  results : List (List (String × String))
  total_count : Nat
deriving Repr, DecidableEq

/-- Parameters of one call to the remote search client, as submitted by
`search_client.search(...)` in `search_query` (app.py lines 37-50). -/
structure SearchCall where
  search_text : String
  search_mode : String
  include_total_count : Bool
  filter : Option String
  order_by : Option String
  facets : List String
  highlight_fields : String
  select : String
deriving Repr, DecidableEq

/-- Behavior of the remote service: the outcome of one client call. -/
abbrev Remote := SearchCall → Except Exn ResultSet

/-- Models `search_query(search_text, filter_by=None, sort_order=None)`
(app.py lines 23-56). It builds the client call with the fixed mode,
count, facet, highlight and select arguments, submits it once, and on
failure logs and re-raises the same exception (so the caller receives
the underlying error unchanged). Returns the outcome together with the
list of remote calls issued. -/
def search_query (remote : Remote) (search_text : String)
    (filter_by : Option String := none) (sort_order : Option String := none) :
    Except Exn ResultSet × List SearchCall :=
  let call : SearchCall :=
    { search_text := search_text
      search_mode := "all"
      include_total_count := true
      filter := filter_by
      order_by := sort_order
      facets := ["metadata_author"]
      highlight_fields := "merged_content-3,imageCaption-3"
      select := "metadata_storage_name,metadata_author,metadata_storage_size,metadata_storage_last_modified,language,merged_content,keyphrases,locations,imageTags,imageCaption, sentiment" }
  (remote call, [call])

/-- Models the Python str.strip() call: remove whitespace characters
from both ends of the string. Implemented structurally on the character
list so that concrete instances evaluate by reduction. -/
def pyStrip (s : String) : String :=
  String.mk
    (((s.data.dropWhile Char.isWhitespace).reverse.dropWhile
        Char.isWhitespace).reverse)

/-- Structured search request built by the handler from the raw query
parameters (the Request Translator of spec section 4.1). -/
structure SearchRequest where
  search_text : String
  filter_expression : Option String
  sort_expression : String
deriving Repr, DecidableEq

/-- Models app.py lines 74-93: trim the `search` value (empty default),
build the author filter when a `facet` key is present, and select the
sort expression by the fixed chain on the `sort` value (default
"relevance", which keeps the relevance expression). -/
def requestTranslator (args : Args) : SearchRequest :=
  let search_text := pyStrip (argsGet args "search" "")
  let filter_expression : Option String :=
    if argsHas args "facet" then
      some ("metadata_author eq \x27" ++ argsGet args "facet" "" ++ "\x27")
    else
      none
  let sort_field := argsGet args "sort" "relevance"
  let sort_expression :=
    if sort_field = "file_name" then "metadata_storage_name asc"
    else if sort_field = "size" then "metadata_storage_size desc"
    else if sort_field = "date" then "metadata_storage_last_modified desc"
    else if sort_field = "sentiment" then "sentiment desc"
    else "search.score()"
  { search_text := search_text
    filter_expression := filter_expression
    sort_expression := sort_expression }

/-- Page rendered to the user: either the error template with a message,
or the results template with the result object and the echoed terms. -/
inductive Page where
  | error (error_message : String)
  | results (search_results : ResultSet) (search_terms : String)
deriving Repr, DecidableEq

/-- Body of the `/search` handler before the surrounding catch-all
(app.py lines 74-99): empty trimmed search text renders the error page
without any remote call; otherwise the translated request is submitted
through `search_query` and a results page is produced, with any raised
exception left uncaught (the `.error` case). Also returns the list of
remote calls issued. -/
def searchBody (args : Args) (remote : Remote) :
    Except Exn Page × List SearchCall :=
  let req := requestTranslator args
  if req.search_text = "" then
    (Except.ok (Page.error "Search term cannot be empty."), [])
  else
    match search_query remote req.search_text req.filter_expression
        (some req.sort_expression) with
    | (Except.ok results, calls) =>
        (Except.ok (Page.results results req.search_text), calls)
    | (Except.error e, calls) => (Except.error e, calls)

/-- Models the full `/search` handler (app.py lines 67-104): the body
wrapped in the catch-all that renders the error page with the message
text of any exception. -/
def search (args : Args) (remote : Remote) : Page × List SearchCall :=
  match searchBody args remote with
  | (Except.ok page, calls) => (page, calls)
  | (Except.error e, calls) => (Page.error e, calls)

/-- Truthiness of an optional environment value, as tested by
`not all([...])`: absent values and empty strings are falsy. -/
def pyTruthy : Option String → Bool
  | none => false
  | some s => s ≠ ""

/-- Process-wide configuration loaded at startup. -/
structure Config where
  search_endpoint : Option String
  search_key : Option String
  search_index : Option String
deriving Repr, DecidableEq

/-- Models app.py lines 13-20: read the three environment values and
raise a fatal error when any is missing (or empty), otherwise expose
them as the immutable process configuration. -/
def startup (search_endpoint search_key search_index : Option String) :
    Except Exn Config :=
  if pyTruthy search_endpoint && pyTruthy search_key && pyTruthy search_index
  then
    Except.ok
      { search_endpoint := search_endpoint
        search_key := search_key
        search_index := search_index }
  else
    Except.error "Missing required environment variables in .env file."

/-- Derived description of the single client call submitted for a given
request: the call record built inside search_query applied to the
translated request fields. -/
def gatewayCall (args : Args) : SearchCall :=
  { search_text := (requestTranslator args).search_text
    search_mode := "all"
    include_total_count := true
    filter := (requestTranslator args).filter_expression
    order_by := some (requestTranslator args).sort_expression
    facets := ["metadata_author"]
    highlight_fields := "merged_content-3,imageCaption-3"
    select := "metadata_storage_name,metadata_author,metadata_storage_size,metadata_storage_last_modified,language,merged_content,keyphrases,locations,imageTags,imageCaption, sentiment" }

/-- Unfolding equation for the search text field of the translator. -/
theorem requestTranslator_search_text (args : Args) :
    (requestTranslator args).search_text = pyStrip (argsGet args "search" "") := rfl

/-- Unfolding equation for the filter field of the translator. -/
theorem requestTranslator_filter (args : Args) :
    (requestTranslator args).filter_expression =
      if argsHas args "facet" then
        some ("metadata_author eq \x27" ++ argsGet args "facet" "" ++ "\x27")
      else none := rfl

/-- Unfolding equation for the sort field of the translator. -/
theorem requestTranslator_sort (args : Args) :
    (requestTranslator args).sort_expression =
      (let sort_field := argsGet args "sort" "relevance"
       if sort_field = "file_name" then "metadata_storage_name asc"
       else if sort_field = "size" then "metadata_storage_size desc"
       else if sort_field = "date" then "metadata_storage_last_modified desc"
       else if sort_field = "sentiment" then "sentiment desc"
       else "search.score()") := rfl

/-- Body outcome when the trimmed search text is empty. -/
theorem searchBody_blank (args : Args) (remote : Remote)
    (h : (requestTranslator args).search_text = "") :
    searchBody args remote =
      (Except.ok (Page.error "Search term cannot be empty."), []) := by
  simp only [searchBody]
  rw [if_pos h]

/-- Body outcome when the trimmed search text is non-empty: one client
call is submitted and the outcome follows the remote answer. -/
theorem searchBody_nonblank (args : Args) (remote : Remote)
    (hne : (requestTranslator args).search_text ≠ "") :
    searchBody args remote =
      (match remote (gatewayCall args) with
        | Except.ok rs =>
            Except.ok (Page.results rs (requestTranslator args).search_text)
        | Except.error e => Except.error e,
       [gatewayCall args]) := by
  rcases hr : remote (gatewayCall args) with e | rs <;>
    simp only [gatewayCall] at hr <;>
    simp [searchBody, search_query, if_neg hne, gatewayCall, hr]

/-- Handler outcome when the trimmed search text is empty. -/
theorem search_eq_blank (args : Args) (remote : Remote)
    (h : (requestTranslator args).search_text = "") :
    search args remote = (Page.error "Search term cannot be empty.", []) := by
  unfold search
  rw [searchBody_blank args remote h]

/-- Handler outcome when the trimmed search text is non-empty. -/
theorem search_eq_nonblank (args : Args) (remote : Remote)
    (hne : (requestTranslator args).search_text ≠ "") :
    search args remote =
      (match remote (gatewayCall args) with
        | Except.ok rs => Page.results rs (requestTranslator args).search_text
        | Except.error e => Page.error e,
       [gatewayCall args]) := by
  unfold search
  rw [searchBody_nonblank args remote hne]
  rcases hr : remote (gatewayCall args) with e | rs <;> simp [hr]

/-- C1: for every /search request whose search parameter value is empty
or consists only of whitespace after trimming, the handler renders the
error page with the fixed message "Search term cannot be empty." and
issues zero remote calls. -/
theorem blank_search_renders_error_without_remote_call
    (args : Args) (remote : Remote)
    (h : pyStrip (argsGet args "search" "") = "") :
    search args remote = (Page.error "Search term cannot be empty.", []) :=
  search_eq_blank args remote h

/-- Witness for C1 at a whitespace-only search value. -/
theorem blank_search_renders_error_without_remote_call_witness :
    pyStrip (argsGet [("search", "   ")] "search" "") = "" ∧
    search [("search", "   ")] (fun _ => Except.error "boom") =
      (Page.error "Search term cannot be empty.", []) :=
  ⟨rfl, blank_search_renders_error_without_remote_call _ _ rfl⟩

/-- C2: on a request that reaches the gateway, the filter expression of
the single submitted call is the unescaped author equality built from
the raw facet value when a facet parameter is present, and is absent
when no facet parameter is present. -/
theorem facet_filter_passed_to_gateway (args : Args) (remote : Remote)
    (hne : pyStrip (argsGet args "search" "") ≠ "") :
    (∀ v, List.lookup "facet" args = some v →
      ∃ c, (search args remote).2 = [c] ∧
        c.filter = some ("metadata_author eq \x27" ++ v ++ "\x27")) ∧
    (List.lookup "facet" args = none →
      ∃ c, (search args remote).2 = [c] ∧ c.filter = none) := by
  have hne2 : (requestTranslator args).search_text ≠ "" := hne
  have hsnd : (search args remote).2 = [gatewayCall args] := by
    rw [search_eq_nonblank args remote hne2]
  constructor
  · intro v hv
    refine ⟨gatewayCall args, hsnd, ?_⟩
    show (requestTranslator args).filter_expression = _
    rw [requestTranslator_filter]
    simp [argsHas, argsGet, hv]
  · intro hv
    refine ⟨gatewayCall args, hsnd, ?_⟩
    show (requestTranslator args).filter_expression = none
    rw [requestTranslator_filter]
    simp [argsHas, argsGet, hv]

/-- Witness for C2 at search=paris, facet=jsmith. -/
theorem facet_filter_passed_to_gateway_witness :
    ∃ c,
      (search [("search", "paris"), ("facet", "jsmith")]
          (fun _ => Except.ok ⟨[], 0⟩)).2 = [c] ∧
      c.filter = some ("metadata_author eq \x27" ++ "jsmith" ++ "\x27") :=
  (facet_filter_passed_to_gateway _ _ (by decide)).1 "jsmith" rfl

/-- C3: the sort expression produced by the translator follows the fixed
lookup table on the sort parameter (absent or relevance gives the
relevance expression; file_name, size, date and sentiment give their
fixed expressions), and every unrecognized value falls back to the
relevance expression with no error. -/
theorem sort_expression_lookup_table (args : Args) :
    ((List.lookup "sort" args = none ∨ List.lookup "sort" args = some "relevance") →
      (requestTranslator args).sort_expression = "search.score()") ∧
    (List.lookup "sort" args = some "file_name" →
      (requestTranslator args).sort_expression = "metadata_storage_name asc") ∧
    (List.lookup "sort" args = some "size" →
      (requestTranslator args).sort_expression = "metadata_storage_size desc") ∧
    (List.lookup "sort" args = some "date" →
      (requestTranslator args).sort_expression = "metadata_storage_last_modified desc") ∧
    (List.lookup "sort" args = some "sentiment" →
      (requestTranslator args).sort_expression = "sentiment desc") ∧
    (∀ v, List.lookup "sort" args = some v →
      v ∉ (["relevance", "file_name", "size", "date", "sentiment"] : List String) →
      (requestTranslator args).sort_expression = "search.score()") := by
  refine ⟨?_, ?_, ?_, ?_, ?_, ?_⟩
  · rintro (h | h) <;> rw [requestTranslator_sort] <;> simp [argsGet, h]
  · intro h
    rw [requestTranslator_sort]; simp [argsGet, h]
  · intro h
    rw [requestTranslator_sort]; simp [argsGet, h]
  · intro h
    rw [requestTranslator_sort]; simp [argsGet, h]
  · intro h
    rw [requestTranslator_sort]; simp [argsGet, h]
  · intro v hv hmem
    simp only [List.mem_cons, List.not_mem_nil, or_false] at hmem
    push_neg at hmem
    rw [requestTranslator_sort]
    simp [argsGet, hv, hmem.2.1, hmem.2.2.1, hmem.2.2.2.1, hmem.2.2.2.2]

/-- Witness for C3 at sort=size. -/
theorem sort_expression_lookup_table_witness :
    (requestTranslator [("search", "budget"), ("sort", "size")]).sort_expression =
      "metadata_storage_size desc" :=
  (sort_expression_lookup_table _).2.2.1 rfl

/-- C4: the handler always terminates in a results page or an error
page, and whenever the handler body raises an exception the catch-all
renders the error page carrying that exception message, so no fault
escapes the /search boundary. -/
theorem search_never_propagates_faults (args : Args) (remote : Remote) :
    ((∃ msg, (search args remote).1 = Page.error msg) ∨
      ∃ rs terms, (search args remote).1 = Page.results rs terms) ∧
    ∀ e calls, searchBody args remote = (Except.error e, calls) →
      search args remote = (Page.error e, calls) := by
  constructor
  · cases hp : (search args remote).1 with
    | error m => exact Or.inl ⟨m, rfl⟩
    | results rs t => exact Or.inr ⟨rs, t, rfl⟩
  · intro e calls h
    unfold search
    rw [h]

/-- Witness for C4 at a remote call that raises. -/
theorem search_never_propagates_faults_witness :
    search [("search", "paris")] (fun _ => Except.error "boom") =
      (Page.error "boom", [gatewayCall [("search", "paris")]]) :=
  (search_never_propagates_faults _ _).2 "boom" _ rfl

/-- C5: startup fails with the fatal configuration error whenever any of
the three required values is missing, and any configuration that startup
accepts has all three values present, so request handling never observes
a missing configuration. -/
theorem missing_config_is_fatal (e k i : Option String) :
    ((e = none ∨ k = none ∨ i = none) →
      startup e k i =
        Except.error "Missing required environment variables in .env file.") ∧
    (∀ cfg, startup e k i = Except.ok cfg →
      pyTruthy cfg.search_endpoint = true ∧
      pyTruthy cfg.search_key = true ∧
      pyTruthy cfg.search_index = true) := by
  constructor
  · intro h
    rcases h with h | h | h <;> subst h <;> simp [startup, pyTruthy]
  · intro cfg h
    unfold startup at h
    by_cases hc :
        (pyTruthy e && pyTruthy k && pyTruthy i) = true
    · rw [if_pos hc] at h
      simp only [Bool.and_eq_true] at hc
      cases h
      exact ⟨hc.1.1, hc.1.2, hc.2⟩
    · rw [if_neg hc] at h
      exact Except.noConfusion h

/-- Witness for C5 with a missing endpoint. -/
theorem missing_config_is_fatal_witness :
    startup none (some "key") (some "index") =
      Except.error "Missing required environment variables in .env file." :=
  (missing_config_is_fatal none (some "key") (some "index")).1 (Or.inl rfl)

/-- C6: for every search request reaching the gateway, exactly one remote
call is issued, and it carries the fixed parameters: all-fields match
mode, total count requested, the author facet dimension, the fixed
highlight fields, and the fixed projection of result fields. -/
theorem gateway_submits_one_fixed_call (remote : Remote) (st : String)
    (fb so : Option String) :
    ∃ c, (search_query remote st fb so).2 = [c] ∧
      c.search_text = st ∧
      c.filter = fb ∧
      c.order_by = so ∧
      c.search_mode = "all" ∧
      c.include_total_count = true ∧
      c.facets = ["metadata_author"] ∧
      c.highlight_fields = "merged_content-3,imageCaption-3" ∧
      c.select = "metadata_storage_name,metadata_author,metadata_storage_size,metadata_storage_last_modified,language,merged_content,keyphrases,locations,imageTags,imageCaption, sentiment" :=
  ⟨_, rfl, rfl, rfl, rfl, rfl, rfl, rfl, rfl, rfl⟩

/-- C7: every failure raised by the remote call surfaces to the caller of
the gateway as one error carrying the underlying failure message,
unchanged. -/
theorem gateway_surfaces_underlying_failure (remote : Remote) (st : String)
    (fb so : Option String) (msg : Exn)
    (h : ∀ c, remote c = Except.error msg) :
    (search_query remote st fb so).1 = Except.error msg := by
  unfold search_query
  exact h _

/-- Witness for C7 at an authentication-style failure. -/
theorem gateway_surfaces_underlying_failure_witness :
    (search_query (fun _ => Except.error "invalid credentials")
        "london" none none).1 = Except.error "invalid credentials" :=
  gateway_surfaces_underlying_failure
    (fun _ => Except.error "invalid credentials") "london" none none
    "invalid credentials" (fun _ => rfl)

/-- C8: the request translator is a pure deterministic mapping: two
requests with identical query parameters produce identical search
request fields. -/
theorem requestTranslator_deterministic (a b : Args) (h : a = b) :
    requestTranslator a = requestTranslator b := by
  rw [h]

/-- Witness for C8 at a concrete parameter list. -/
theorem requestTranslator_deterministic_witness :
    requestTranslator [("search", "paris"), ("sort", "date")] =
      requestTranslator [("search", "paris"), ("sort", "date")] :=
  requestTranslator_deterministic _ _ rfl

/-- C9: when the facet parameter is present with an empty value, a filter
expression is still built, equal to the author equality against the
empty string: presence of the key decides filtering. -/
theorem empty_facet_value_still_filters (args : Args)
    (h : List.lookup "facet" args = some "") :
    (requestTranslator args).filter_expression =
      some "metadata_author eq \x27\x27" := by
  rw [requestTranslator_filter]
  simp [argsHas, argsGet, h]

/-- Witness for C9 at facet equal to the empty string. -/
theorem empty_facet_value_still_filters_witness :
    (requestTranslator [("search", "rome"), ("facet", "")]).filter_expression =
      some "metadata_author eq \x27\x27" :=
  empty_facet_value_still_filters _ rfl

/-- C10: a request with no search parameter at all behaves exactly like
an empty search term: the value defaults to the empty string, the fixed
empty-term error page is rendered, and no remote call is made. -/
theorem missing_search_param_behaves_as_empty (args : Args) (remote : Remote)
    (h : List.lookup "search" args = none) :
    argsGet args "search" "" = "" ∧
    search args remote = (Page.error "Search term cannot be empty.", []) := by
  have hget : argsGet args "search" "" = "" := by
    simp [argsGet, h]
  refine ⟨hget, search_eq_blank args remote ?_⟩
  rw [requestTranslator_search_text, hget]
  rfl

/-- Witness for C10 at a request carrying only a facet parameter. -/
theorem missing_search_param_behaves_as_empty_witness :
    argsGet [("facet", "jsmith")] "search" "" = "" ∧
    search [("facet", "jsmith")] (fun _ => Except.error "boom") =
      (Page.error "Search term cannot be empty.", []) :=
  missing_search_param_behaves_as_empty _ _ rfl

end MargiesTravel
